import Mathlib

/-!
# EtherSia: the socket layer of `src/Socket.cpp` and the byte-order macros of `EtherSia.h`

`Socket.cpp` is embedded by explicit state passing.  The state a member function of
`Socket` works on is a pair: the socket's own fields (`Socket`) and the part of the
network interface the socket touches (`EtherSia`: the packet overlaid on the shared
buffer, and a log of every call that leaves `Socket.cpp`).

Everything `Socket.cpp` calls but does not define (`IPv6Address::fromString`,
`EtherSia::lookupHostname`, `inOurSubnet`, `discoverNeighbour`, `routerMac`,
`prepareSend`, `prepareReply` and the virtual `sendInternal`) is a field of
`Collaborators`, so every theorem holds for every implementation of them.

Ports and lengths are `uint16_t` in the source; they are `Nat` here and are only
stored and passed on, never computed with.  A `const char *` argument is the `String`
of the characters before its terminator.
-/

namespace Sia

/-! ## Byte order macros (`EtherSia.h`, lines 8-14) -/

/-- The macro `htons(x)`, that is `( ((x)<<8) | (((x)>>8)&0xFF) )`, evaluated in
unbounded integers.  For a 16-bit `x` no intermediate value reaches `2^24`, so this is
also its value in every integer type of 24 bits or more. -/
def htons (x : Nat) : Nat := (x <<< 8) ||| ((x >>> 8) &&& 0xFF)

/-- The macro `ntohs(x)`, defined as `htons(x)`. -/
def ntohs (x : Nat) : Nat := htons x

/-! ## Data model -/

/-- An IPv6 address: its raw bytes (16 of them in the source). -/
structure IPv6Address where
  bytes : List Nat
deriving DecidableEq, Repr

/-- A MAC address: its raw bytes (6 of them in the source). -/
structure MACAddress where
  bytes : List Nat
deriving DecidableEq, Repr

/-- The effect of `IPv6Address::setZero()`: all sixteen bytes are zero. -/
def IPv6Address.setZero : IPv6Address := ⟨List.replicate 16 0⟩

/-- The packet overlaid on the shared buffer, as far as `Socket.cpp` touches it: the
IPv6 destination, the Ethernet destination, and the payload region: the bytes from
where `payload()` points to the end of the shared buffer, a finite region whose size
is the length of the list. -/
structure IPv6Packet where
  destination : IPv6Address
  etherDestination : MACAddress
  payload : List Nat

/-- A call that leaves `Socket.cpp`, with its explicit arguments. -/
inductive Call where
  | containsColon (str : String)
  | fromString (str : String)
  | lookupHostname (name : String)
  | inOurSubnet (address : IPv6Address)
  | discoverNeighbour (address : IPv6Address)
  | routerMac
  | packet
  | setDestination (address : IPv6Address)
  | setEtherDestination (mac : MACAddress)
  | prepareSend
  | prepareReply
  | payload
  | memcpy (length : Nat)
  | sendInternal (length : Nat) (isReply : Bool)
deriving DecidableEq, Repr

/-- The network interface as the socket sees it: the packet in the shared buffer and
the calls made so far, oldest first. -/
structure EtherSia where
  packet : IPv6Packet
  calls : List Call

/-- The fields of a socket (`_ether` is the `EtherSia` passed alongside). -/
structure Socket where
  _remoteAddress : IPv6Address
  _remoteMac : MACAddress
  _remotePort : Nat
  _localPort : Nat
deriving DecidableEq, Repr

/-- The functions `Socket.cpp` calls and does not define.  `lookupHostname` and
`discoverNeighbour` return a pointer that is `NULL` on failure (`none` here) and may
use the shared buffer; `fromString` parses into the address it is called on and
returns whether it succeeded; `sendInternal` is the socket's virtual method that
finishes the headers and transmits. -/
structure Collaborators where
  fromString : IPv6Address → String → Bool × IPv6Address
  lookupHostname : IPv6Packet → String → Option IPv6Address × IPv6Packet
  inOurSubnet : IPv6Address → Bool
  discoverNeighbour : IPv6Packet → IPv6Address → Option MACAddress × IPv6Packet
  routerMac : MACAddress
  prepareSend : IPv6Packet → IPv6Packet
  prepareReply : IPv6Packet → IPv6Packet
  sendInternal : Socket → Nat → Bool → IPv6Packet → IPv6Packet

/-- Modelled from the spec: `util.h`, which declares `containsColon`, is not among the
sources.  Following its name and the spec's "colon notation", it tells whether the
string has a `:` character. -/
def containsColon (str : String) : Bool := str.toList.any (fun ch => ch == ':')

/-- The C library's `memcpy(dst, src, n)` into a region of `dst.length` bytes, where
`src i` is the byte at `src + i`.  When `n` bytes fit, the first `n` bytes of the region
become those of `src` and the others stay.  When they do not fit, the copy runs past
the end of the region and the program has no defined state any more: `none`. -/
def memcpy (dst : List Nat) (src : Nat → Nat) (n : Nat) : Option (List Nat) :=
  if n ≤ dst.length then some ((List.range n).map src ++ dst.drop n) else none

/-- Append one call to the log. -/
def EtherSia.log (e : EtherSia) (c : Call) : EtherSia :=
  { e with calls := e.calls ++ [c] }

/-- Modelled from the spec: `IPv6Packet.h` is not among the sources.
`IPv6Packet::setDestination` stores the IPv6 destination address field. -/
def EtherSia.setDestination (e : EtherSia) (address : IPv6Address) : EtherSia :=
  { packet := { e.packet with destination := address },
    calls := e.calls ++ [Call.setDestination address] }

/-- Modelled from the spec: `IPv6Packet.h` is not among the sources.
`IPv6Packet::setEtherDestination` stores the Ethernet destination MAC field. -/
def EtherSia.setEtherDestination (e : EtherSia) (mac : MACAddress) : EtherSia :=
  { packet := { e.packet with etherDestination := mac },
    calls := e.calls ++ [Call.setEtherDestination mac] }

/-! ## `Socket.cpp` -/

/-- The constructor `Socket::Socket(EtherSia &ether, uint16_t localPort)` (lines 11-16).
`mac` is what the default constructor of `MACAddress` leaves in `_remoteMac`. -/
def Socket.init (localPort : Nat) (mac : MACAddress) : Socket :=
  { _remoteAddress := IPv6Address.setZero, _remoteMac := mac,
    _remotePort := 0, _localPort := localPort }

/-- The method `Socket::setRemoteAddress(IPv6Address &remoteAddress, uint16_t remotePort)`
(lines 39-57). -/
def Socket.setRemoteAddress (c : Collaborators) (remoteAddress : IPv6Address)
    (remotePort : Nat) (s : Socket) (e : EtherSia) : Bool × Socket × EtherSia :=
  let s := { s with _remotePort := remotePort }
  let s := { s with _remoteAddress := remoteAddress }
  -- Work out the MAC address to use
  let e := e.log (Call.inOurSubnet s._remoteAddress)
  if c.inOurSubnet s._remoteAddress then
    let r := c.discoverNeighbour e.packet s._remoteAddress
    let e : EtherSia :=
      { packet := r.2, calls := e.calls ++ [Call.discoverNeighbour s._remoteAddress] }
    match r.1 with
    | none => (false, s, e)
    | some mac => (true, { s with _remoteMac := mac }, e)
  else
    let e := e.log Call.routerMac
    (true, { s with _remoteMac := c.routerMac }, e)

/-- The method `Socket::setRemoteAddress(const char *remoteAddress, uint16_t remotePort)`
(lines 18-37). -/
def Socket.setRemoteAddressString (c : Collaborators) (remoteAddress : String)
    (remotePort : Nat) (s : Socket) (e : EtherSia) : Bool × Socket × EtherSia :=
  let e := e.log (Call.containsColon remoteAddress)
  if containsColon remoteAddress then
    -- Parse a human readable IPv6 Address string
    let r := c.fromString s._remoteAddress remoteAddress
    let s := { s with _remoteAddress := r.2 }
    let e := e.log (Call.fromString remoteAddress)
    if !r.1 then
      (false, s, e)
    else
      Socket.setRemoteAddress c s._remoteAddress remotePort s e
  else
    -- Lookup a hostname
    let r := c.lookupHostname e.packet remoteAddress
    let e : EtherSia :=
      { packet := r.2, calls := e.calls ++ [Call.lookupHostname remoteAddress] }
    match r.1 with
    | some address =>
      let s := { s with _remoteAddress := address }
      Socket.setRemoteAddress c s._remoteAddress remotePort s e
    | none =>
      -- Fail
      (false, s, e)

/-- The method `Socket::remoteAddress()` (lines 59-62). -/
def Socket.remoteAddress (s : Socket) : IPv6Address := s._remoteAddress

/-- The method `Socket::remotePort()` (lines 64-67). -/
def Socket.remotePort (s : Socket) : Nat := s._remotePort

/-- The method `Socket::localPort()` (lines 69-72). -/
def Socket.localPort (s : Socket) : Nat := s._localPort

/-- The method `Socket::send(uint16_t length)` (lines 99-108). -/
def Socket.send (c : Collaborators) (length : Nat) (s : Socket) (e : EtherSia) :
    Socket × EtherSia :=
  let e := e.log Call.packet
  let e := e.setDestination s._remoteAddress
  let e := e.setEtherDestination s._remoteMac
  let e : EtherSia :=
    { packet := c.prepareSend e.packet, calls := e.calls ++ [Call.prepareSend] }
  (s, { packet := c.sendInternal s length false e.packet,
        calls := e.calls ++ [Call.sendInternal length false] })

/-- The method `Socket::sendReply(uint16_t length)` (lines 125-130). -/
def Socket.sendReply (c : Collaborators) (length : Nat) (s : Socket) (e : EtherSia) :
    Socket × EtherSia :=
  let e : EtherSia :=
    { packet := c.prepareReply e.packet, calls := e.calls ++ [Call.prepareReply] }
  (s, { packet := c.sendInternal s length true e.packet,
        calls := e.calls ++ [Call.sendInternal length true] })

/-- The addresses `discoverNeighbour` was called with, oldest first. -/
def discoverNeighbourCalls (cs : List Call) : List IPv6Address :=
  cs.filterMap fun
    | Call.discoverNeighbour a => some a
    | _ => none

/-- The addresses `inOurSubnet` was called with, oldest first. -/
def inOurSubnetCalls (cs : List Call) : List IPv6Address :=
  cs.filterMap fun
    | Call.inOurSubnet a => some a
    | _ => none

/-- The names `lookupHostname` was called with, oldest first. -/
def lookupHostnameCalls (cs : List Call) : List String :=
  cs.filterMap fun
    | Call.lookupHostname n => some n
    | _ => none

/-- The arguments `sendInternal` was called with, oldest first. -/
def sendInternalCalls (cs : List Call) : List (Nat × Bool) :=
  cs.filterMap fun
    | Call.sendInternal n r => some (n, r)
    | _ => none

/-! ## Concrete inputs -/

/-- The on-link peer `fe80::2`. -/
def lanPeer : IPv6Address := ⟨[0xfe, 0x80, 0, 0, 0, 0, 0, 0, 0, 0, 0, 0, 0, 0, 0, 2]⟩

/-- The off-link host `2001:db8::1`. -/
def wanHost : IPv6Address := ⟨[0x20, 0x01, 0x0d, 0xb8, 0, 0, 0, 0, 0, 0, 0, 0, 0, 0, 0, 1]⟩

/-- The MAC `02:00:00:00:00:01` of the default gateway. -/
def gatewayMac : MACAddress := ⟨[0x02, 0, 0, 0, 0, 0x01]⟩

/-- The MAC `aa:bb:cc:dd:ee:ff`, left in a socket by earlier use. -/
def staleMac : MACAddress := ⟨[0xaa, 0xbb, 0xcc, 0xdd, 0xee, 0xff]⟩

/-- A link on `fe80::/64` where nobody answers: neighbour discovery and hostname
lookup yield nothing, the address parser rejects its input, and the remaining
collaborators leave the packet alone. -/
def quietLink : Collaborators where
  fromString := fun a _ => (false, a)
  lookupHostname := fun p _ => (none, p)
  inOurSubnet := fun a => a.bytes.take 8 == [0xfe, 0x80, 0, 0, 0, 0, 0, 0]
  discoverNeighbour := fun p _ => (none, p)
  routerMac := gatewayMac
  prepareSend := fun p => p
  prepareReply := fun p => p
  sendInternal := fun _ _ _ p => p

/-- The MAC `02:00:00:00:00:02` of the peer `fe80::2`. -/
def peerMac : MACAddress := ⟨[0x02, 0, 0, 0, 0, 0x02]⟩

/-- The same link once the peer answers: neighbour discovery yields `peerMac`. -/
def answeringLink : Collaborators :=
  { quietLink with discoverNeighbour := fun p _ => (some peerMac, p) }

/-- An interface whose buffer is all zero, with a payload region of 16 bytes, and that
has seen no call yet. -/
def idle : EtherSia :=
  { packet := { destination := IPv6Address.setZero, etherDestination := ⟨[0, 0, 0, 0, 0, 0]⟩,
                payload := List.replicate 16 0 },
    calls := [] }

/-- A socket bound to port 20000 that still holds `staleMac`. -/
def usedSocket : Socket := Socket.init 20000 staleMac

/-! ## Helper lemmas -/

theorem htons_eq (x : Nat) : htons x = x * 256 + x / 256 % 256 := by
  have h : x / 256 % 2 ^ 8 < 2 ^ 8 := Nat.mod_lt _ (by norm_num)
  have h2 : 2 ^ 8 * x + x / 256 % 2 ^ 8 = 2 ^ 8 * x ||| x / 256 % 2 ^ 8 :=
    Nat.mul_add_lt_is_or h x
  have h3 : x / 256 &&& 2 ^ 8 - 1 = x / 256 % 2 ^ 8 :=
    Nat.and_pow_two_sub_one_eq_mod (x / 256) 8
  have h4 : (x <<< 8) = 2 ^ 8 * x := by rw [Nat.shiftLeft_eq, Nat.mul_comm]
  have h5 : (x >>> 8) = x / 256 := by rw [Nat.shiftRight_eq_div_pow]
  have h6 : (0xFF : Nat) = 2 ^ 8 - 1 := by norm_num
  unfold htons
  rw [h4, h5, h6, h3, ← h2]
  norm_num
  omega

theorem htons_pair (hi lo : Nat) (hhi : hi < 256) (hlo : lo < 256) :
    htons (256 * hi + lo) = 65536 * hi + 256 * lo + hi := by
  have h1 : (256 * hi + lo) / 256 = hi := by omega
  rw [htons_eq, h1]
  omega

theorem containsColon_dotted : containsColon "192.0.2.1" = false := by decide

theorem containsColon_bad : containsColon "fe80::zz" = true := by decide

theorem setRemoteAddress_calls (c : Collaborators) (addr : IPv6Address) (port : Nat)
    (s : Socket) (e : EtherSia) :
    (Socket.setRemoteAddress c addr port s e).2.2.calls =
      e.calls ++ [Call.inOurSubnet addr,
        if c.inOurSubnet addr then Call.discoverNeighbour addr else Call.routerMac] := by
  unfold Socket.setRemoteAddress
  by_cases h : c.inOurSubnet addr = true
  · cases hd : (c.discoverNeighbour e.packet addr).1 <;>
      simp [h, hd, EtherSia.log]
  · simp [h, EtherSia.log]

theorem setRemoteAddress_pending (c : Collaborators) (addr : IPv6Address) (port : Nat)
    (s : Socket) (e : EtherSia) (hsub : c.inOurSubnet addr = true)
    (hnone : (c.discoverNeighbour e.packet addr).1 = none) :
    (Socket.setRemoteAddress c addr port s e).1 = false ∧
    (Socket.setRemoteAddress c addr port s e).2.1 =
      { s with _remotePort := port, _remoteAddress := addr } := by
  unfold Socket.setRemoteAddress
  simp [hsub, hnone, EtherSia.log]

theorem send_calls (c : Collaborators) (length : Nat) (s : Socket) (e : EtherSia) :
    (Socket.send c length s e).2.calls =
      e.calls ++ [Call.packet, Call.setDestination s._remoteAddress,
        Call.setEtherDestination s._remoteMac, Call.prepareSend,
        Call.sendInternal length false] := by
  simp [Socket.send, EtherSia.log, EtherSia.setDestination, EtherSia.setEtherDestination]

theorem setRemoteAddressString_config_error (c : Collaborators) (str : String)
    (port : Nat) (s : Socket) (e : EtherSia)
    (hcfg : (containsColon str = true ∧ (c.fromString s._remoteAddress str).1 = false) ∨
      (containsColon str = false ∧ (c.lookupHostname e.packet str).1 = none)) :
    (Socket.setRemoteAddressString c str port s e).1 = false ∧
    (Socket.setRemoteAddressString c str port s e).2.1._remotePort = s._remotePort ∧
    (Socket.setRemoteAddressString c str port s e).2.1._remoteMac = s._remoteMac ∧
    (Socket.setRemoteAddressString c str port s e).2.2.calls =
      e.calls ++ [Call.containsColon str,
        if containsColon str then Call.fromString str else Call.lookupHostname str] := by
  unfold Socket.setRemoteAddressString
  rcases hcfg with ⟨hc, hf⟩ | ⟨hc, hl⟩
  · simp [hc, hf, EtherSia.log]
  · simp [hc, hl, EtherSia.log]

theorem setRemoteAddressString_lookups (c : Collaborators) (str : String)
    (port : Nat) (s : Socket) (e : EtherSia) :
    lookupHostnameCalls (Socket.setRemoteAddressString c str port s e).2.2.calls =
      lookupHostnameCalls e.calls ++ (if containsColon str then [] else [str]) := by
  unfold Socket.setRemoteAddressString
  by_cases hc : containsColon str = true
  · by_cases hf : (c.fromString s._remoteAddress str).1 = true
    · simp only [hc, hf, if_true, Bool.not_true, Bool.false_eq_true, if_false]
      rw [setRemoteAddress_calls]
      by_cases hs : c.inOurSubnet (c.fromString s._remoteAddress str).2 = true <;>
        simp [hs, EtherSia.log, lookupHostnameCalls, List.filterMap_append]
    · simp [hc, hf, EtherSia.log, lookupHostnameCalls, List.filterMap_append]
  · cases hl : (c.lookupHostname e.packet str).1 with
    | none => simp [hc, hl, EtherSia.log, lookupHostnameCalls, List.filterMap_append]
    | some a =>
      simp only [hc, hl, EtherSia.log, Bool.false_eq_true, if_false]
      rw [setRemoteAddress_calls]
      by_cases hs : c.inOurSubnet a = true <;>
        simp [hs, lookupHostnameCalls, List.filterMap_append]

theorem setRemoteAddress_records (c : Collaborators) (addr : IPv6Address) (port : Nat)
    (s : Socket) (e : EtherSia) :
    (Socket.setRemoteAddress c addr port s e).2.1._remoteAddress = addr ∧
    (Socket.setRemoteAddress c addr port s e).2.1._remotePort = port ∧
    (Socket.setRemoteAddress c addr port s e).2.1._localPort = s._localPort := by
  unfold Socket.setRemoteAddress
  by_cases h : c.inOurSubnet addr = true
  · cases hd : (c.discoverNeighbour e.packet addr).1 <;> simp [h, hd, EtherSia.log]
  · simp [h]

/-- C10: for every 16-bit `x`, `htons(x)` truncated to 16 bits is `x` with its two bytes
exchanged, `ntohs(htons(x))` truncated to 16 bits is `x`, and without the truncation
`htons(x)` does not fit in 16 bits whenever the high byte of `x` is non-zero; for
instance `htons(0x1234) = 0x123412`. -/
theorem htons_swaps_bytes (x : Nat) (hx : x < 65536) :
    htons x % 65536 = (x % 256) * 256 + x / 256 ∧
    ntohs (htons x) % 65536 = x ∧
    (x / 256 ≠ 0 → 65536 ≤ htons x) ∧
    htons 0x1234 = 0x123412 := by
  have h0 := htons_pair (x / 256) (x % 256) (by omega) (by omega)
  have h1 : 256 * (x / 256) + x % 256 = x := by omega
  rw [h1] at h0
  have h4 : (65536 * (x / 256) + 256 * (x % 256) + x / 256) / 256 % 256 = x % 256 := by
    have e1 : 65536 * (x / 256) + 256 * (x % 256) + x / 256 = x / 256 + 256 * x := by omega
    have e2 : x / 256 / 256 = 0 := Nat.div_eq_of_lt (by omega)
    rw [e1, Nat.add_mul_div_left _ _ (by norm_num : 0 < 256), e2, Nat.zero_add]
  refine ⟨?_, ?_, ?_, by decide⟩
  · rw [h0]; omega
  · unfold ntohs; rw [h0, htons_eq, h4]; omega
  · intro h; rw [h0]; omega

theorem htons_swaps_bytes_witness :
    (0xABCD : Nat) < 65536 ∧
    (htons 0xABCD % 65536 = (0xABCD % 256) * 256 + 0xABCD / 256 ∧
     ntohs (htons 0xABCD) % 65536 = 0xABCD ∧
     (0xABCD / 256 ≠ 0 → 65536 ≤ htons 0xABCD) ∧
     htons 0x1234 = 0x123412) :=
  ⟨by decide, htons_swaps_bytes 0xABCD (by decide)⟩

/-- C2: for an address outside the device's subnet, `setRemoteAddress(addr, port)`
returns true, stores the router MAC as the remote MAC, and makes exactly the calls
`inOurSubnet(addr)` and `routerMac()`: `discoverNeighbour` is not invoked. -/
theorem setRemoteAddress_off_subnet (c : Collaborators) (addr : IPv6Address) (port : Nat)
    (s : Socket) (e : EtherSia) (hoff : c.inOurSubnet addr = false) :
    (Socket.setRemoteAddress c addr port s e).1 = true ∧
    (Socket.setRemoteAddress c addr port s e).2.1._remoteMac = c.routerMac ∧
    (Socket.setRemoteAddress c addr port s e).2.2.calls =
      e.calls ++ [Call.inOurSubnet addr, Call.routerMac] ∧
    discoverNeighbourCalls (Socket.setRemoteAddress c addr port s e).2.2.calls =
      discoverNeighbourCalls e.calls := by
  refine ⟨?_, ?_, ?_, ?_⟩
  · simp [Socket.setRemoteAddress, hoff]
  · simp [Socket.setRemoteAddress, hoff]
  · simp [setRemoteAddress_calls, hoff]
  · simp [setRemoteAddress_calls, hoff, discoverNeighbourCalls, List.filterMap_append]

theorem setRemoteAddress_off_subnet_witness :
    quietLink.inOurSubnet wanHost = false ∧
    ((Socket.setRemoteAddress quietLink wanHost 1883 usedSocket idle).1 = true ∧
     (Socket.setRemoteAddress quietLink wanHost 1883 usedSocket idle).2.1._remoteMac =
       quietLink.routerMac ∧
     (Socket.setRemoteAddress quietLink wanHost 1883 usedSocket idle).2.2.calls =
       idle.calls ++ [Call.inOurSubnet wanHost, Call.routerMac] ∧
     discoverNeighbourCalls (Socket.setRemoteAddress quietLink wanHost 1883 usedSocket idle).2.2.calls =
       discoverNeighbourCalls idle.calls) :=
  ⟨by decide, setRemoteAddress_off_subnet quietLink wanHost 1883 usedSocket idle (by decide)⟩

/-- C1, as stated, fails: on the quiet link the peer `fe80::2` is on-subnet and
neighbour discovery yields no MAC, so `setRemoteAddress` returns false; the following
`send(5)` still reaches `sendInternal(5, false)`. -/
theorem send_unresolved_reaches_sendInternal :
    quietLink.inOurSubnet lanPeer = true ∧
    (quietLink.discoverNeighbour idle.packet lanPeer).1 = none ∧
    (Socket.setRemoteAddress quietLink lanPeer 1883 usedSocket idle).1 = false ∧
    sendInternalCalls
      (Socket.send quietLink 5
        (Socket.setRemoteAddress quietLink lanPeer 1883 usedSocket idle).2.1
        (Socket.setRemoteAddress quietLink lanPeer 1883 usedSocket idle).2.2).2.calls =
      [(5, false)] := by
  refine ⟨by decide, by decide, by decide, by decide⟩

/-- C1, amended: when the last `setRemoteAddress(addr, port)` was for an on-subnet
address for which `discoverNeighbour` yielded no MAC (so it returned false), a later
`send(length)` is not abandoned: it addresses the packet to `addr` and to the remote
MAC the socket held before that call, runs `prepareSend`, and reaches
`sendInternal(length, false)` exactly once. -/
theorem send_unresolved_not_abandoned (c : Collaborators) (addr : IPv6Address)
    (port length : Nat) (s : Socket) (e e2 : EtherSia)
    (hsub : c.inOurSubnet addr = true)
    (hnone : (c.discoverNeighbour e.packet addr).1 = none) :
    (Socket.setRemoteAddress c addr port s e).1 = false ∧
    (Socket.send c length (Socket.setRemoteAddress c addr port s e).2.1 e2).2.calls =
      e2.calls ++ [Call.packet, Call.setDestination addr,
        Call.setEtherDestination s._remoteMac, Call.prepareSend,
        Call.sendInternal length false] ∧
    sendInternalCalls
        (Socket.send c length (Socket.setRemoteAddress c addr port s e).2.1 e2).2.calls =
      sendInternalCalls e2.calls ++ [(length, false)] := by
  obtain ⟨h1, h2⟩ := setRemoteAddress_pending c addr port s e hsub hnone
  refine ⟨h1, ?_, ?_⟩
  · rw [send_calls, h2]
  · rw [send_calls, h2]
    simp [sendInternalCalls, List.filterMap_append]

theorem send_unresolved_not_abandoned_witness :
    quietLink.inOurSubnet lanPeer = true ∧
    (quietLink.discoverNeighbour idle.packet lanPeer).1 = none ∧
    ((Socket.setRemoteAddress quietLink lanPeer 1883 usedSocket idle).1 = false ∧
     (Socket.send quietLink 5
        (Socket.setRemoteAddress quietLink lanPeer 1883 usedSocket idle).2.1 idle).2.calls =
       idle.calls ++ [Call.packet, Call.setDestination lanPeer,
         Call.setEtherDestination usedSocket._remoteMac, Call.prepareSend,
         Call.sendInternal 5 false] ∧
     sendInternalCalls
        (Socket.send quietLink 5
          (Socket.setRemoteAddress quietLink lanPeer 1883 usedSocket idle).2.1 idle).2.calls =
       sendInternalCalls idle.calls ++ [(5, false)]) :=
  ⟨by decide, by decide,
    send_unresolved_not_abandoned quietLink lanPeer 1883 5 usedSocket idle idle
      (by decide) (by decide)⟩

/-- C3: when the string has a colon and `fromString` rejects it, or has no colon and
`lookupHostname` yields no address, `setRemoteAddress(const char*, port)` returns false,
makes no call beyond `containsColon` and the parser or the lookup (so no neighbour
discovery), and leaves the remote port and the remote MAC as they were. -/
theorem setRemoteAddressString_reports_config_error (c : Collaborators) (str : String)
    (port : Nat) (s : Socket) (e : EtherSia)
    (hcfg : (containsColon str = true ∧ (c.fromString s._remoteAddress str).1 = false) ∨
      (containsColon str = false ∧ (c.lookupHostname e.packet str).1 = none)) :
    (Socket.setRemoteAddressString c str port s e).1 = false ∧
    (Socket.setRemoteAddressString c str port s e).2.2.calls =
      e.calls ++ [Call.containsColon str,
        if containsColon str then Call.fromString str else Call.lookupHostname str] ∧
    discoverNeighbourCalls (Socket.setRemoteAddressString c str port s e).2.2.calls =
      discoverNeighbourCalls e.calls ∧
    (Socket.setRemoteAddressString c str port s e).2.1.remotePort = s.remotePort ∧
    (Socket.setRemoteAddressString c str port s e).2.1._remoteMac = s._remoteMac := by
  obtain ⟨h1, h2, h3, h4⟩ := setRemoteAddressString_config_error c str port s e hcfg
  refine ⟨h1, h4, ?_, h2, h3⟩
  rw [h4]
  by_cases hc : containsColon str = true <;>
    simp [hc, discoverNeighbourCalls, List.filterMap_append]

theorem setRemoteAddressString_reports_config_error_witness :
    ((containsColon "fe80::zz" = true ∧
        (quietLink.fromString usedSocket._remoteAddress "fe80::zz").1 = false) ∨
      (containsColon "fe80::zz" = false ∧
        (quietLink.lookupHostname idle.packet "fe80::zz").1 = none)) ∧
    ((Socket.setRemoteAddressString quietLink "fe80::zz" 1883 usedSocket idle).1 = false ∧
     (Socket.setRemoteAddressString quietLink "fe80::zz" 1883 usedSocket idle).2.2.calls =
       idle.calls ++ [Call.containsColon "fe80::zz",
         if containsColon "fe80::zz" then Call.fromString "fe80::zz"
         else Call.lookupHostname "fe80::zz"] ∧
     discoverNeighbourCalls
         (Socket.setRemoteAddressString quietLink "fe80::zz" 1883 usedSocket idle).2.2.calls =
       discoverNeighbourCalls idle.calls ∧
     (Socket.setRemoteAddressString quietLink "fe80::zz" 1883 usedSocket idle).2.1.remotePort =
       usedSocket.remotePort ∧
     (Socket.setRemoteAddressString quietLink "fe80::zz" 1883 usedSocket idle).2.1._remoteMac =
       usedSocket._remoteMac) :=
  ⟨Or.inl ⟨containsColon_bad, rfl⟩,
    setRemoteAddressString_reports_config_error quietLink "fe80::zz" 1883 usedSocket idle
      (Or.inl ⟨containsColon_bad, rfl⟩)⟩

/-- C4: for every socket state and length, `sendReply(length)` leaves the socket as it
was, makes exactly the calls `prepareReply()` and `sendInternal(length, true)` in that
order (so neither `discoverNeighbour` nor `inOurSubnet`), hands `sendInternal` the
packet `prepareReply` produced, and makes the same calls whatever the socket's remote
address, MAC and port are. -/
theorem sendReply_no_resolution (c : Collaborators) (length : Nat) (s : Socket)
    (e : EtherSia) :
    (Socket.sendReply c length s e).1 = s ∧
    (Socket.sendReply c length s e).2.calls =
      e.calls ++ [Call.prepareReply, Call.sendInternal length true] ∧
    (Socket.sendReply c length s e).2.packet =
      c.sendInternal s length true (c.prepareReply e.packet) ∧
    discoverNeighbourCalls (Socket.sendReply c length s e).2.calls =
      discoverNeighbourCalls e.calls ∧
    inOurSubnetCalls (Socket.sendReply c length s e).2.calls = inOurSubnetCalls e.calls ∧
    (∀ s2 : Socket, (Socket.sendReply c length s2 e).2.calls =
      (Socket.sendReply c length s e).2.calls) := by
  refine ⟨rfl, ?_, rfl, ?_, ?_, ?_⟩
  · simp [Socket.sendReply]
  · simp [Socket.sendReply, discoverNeighbourCalls, List.filterMap_append]
  · simp [Socket.sendReply, inOurSubnetCalls, List.filterMap_append]
  · intro s2; rfl

/-- C5: after `setRemoteAddress(addr, port)` has returned true, the stored remote MAC is
the discovered neighbour MAC when `addr` is on-subnet and the router MAC otherwise, and
`send(length)` sets the packet's IPv6 destination to `addr` and its Ethernet destination
to that MAC before `prepareSend` and then `sendInternal(length, false)` run. -/
theorem send_addresses_configured_remote (c : Collaborators) (addr : IPv6Address)
    (port length : Nat) (s : Socket) (e e2 : EtherSia)
    (hok : (Socket.setRemoteAddress c addr port s e).1 = true) :
    (c.inOurSubnet addr = true →
      (c.discoverNeighbour e.packet addr).1 =
        some (Socket.setRemoteAddress c addr port s e).2.1._remoteMac) ∧
    (c.inOurSubnet addr = false →
      (Socket.setRemoteAddress c addr port s e).2.1._remoteMac = c.routerMac) ∧
    (Socket.send c length (Socket.setRemoteAddress c addr port s e).2.1 e2).2.calls =
      e2.calls ++ [Call.packet, Call.setDestination addr,
        Call.setEtherDestination (Socket.setRemoteAddress c addr port s e).2.1._remoteMac,
        Call.prepareSend, Call.sendInternal length false] ∧
    (Socket.send c length (Socket.setRemoteAddress c addr port s e).2.1 e2).2.packet =
      c.sendInternal (Socket.setRemoteAddress c addr port s e).2.1 length false
        (c.prepareSend
          { destination := addr,
            etherDestination := (Socket.setRemoteAddress c addr port s e).2.1._remoteMac,
            payload := e2.packet.payload }) := by
  have haddr : (Socket.setRemoteAddress c addr port s e).2.1._remoteAddress = addr := by
    unfold Socket.setRemoteAddress
    by_cases h : c.inOurSubnet addr = true
    · cases hd : (c.discoverNeighbour e.packet addr).1 <;> simp [h, hd, EtherSia.log]
    · simp [h]
  refine ⟨?_, ?_, ?_, ?_⟩
  · intro h
    unfold Socket.setRemoteAddress at hok ⊢
    cases hd : (c.discoverNeighbour e.packet addr).1 with
    | none => simp [h, hd, EtherSia.log] at hok
    | some mac => simp [h, hd, EtherSia.log]
  · intro h
    simp [Socket.setRemoteAddress, h]
  · rw [send_calls, haddr]
  · simp [Socket.send, EtherSia.log, EtherSia.setDestination, EtherSia.setEtherDestination,
      haddr]

theorem send_addresses_configured_remote_witness :
    (Socket.setRemoteAddress answeringLink lanPeer 1883 usedSocket idle).1 = true ∧
    ((answeringLink.inOurSubnet lanPeer = true →
       (answeringLink.discoverNeighbour idle.packet lanPeer).1 =
         some (Socket.setRemoteAddress answeringLink lanPeer 1883 usedSocket idle).2.1._remoteMac) ∧
     (answeringLink.inOurSubnet lanPeer = false →
       (Socket.setRemoteAddress answeringLink lanPeer 1883 usedSocket idle).2.1._remoteMac =
         answeringLink.routerMac) ∧
     (Socket.send answeringLink 5
         (Socket.setRemoteAddress answeringLink lanPeer 1883 usedSocket idle).2.1 idle).2.calls =
       idle.calls ++ [Call.packet, Call.setDestination lanPeer,
         Call.setEtherDestination
           (Socket.setRemoteAddress answeringLink lanPeer 1883 usedSocket idle).2.1._remoteMac,
         Call.prepareSend, Call.sendInternal 5 false] ∧
     (Socket.send answeringLink 5
         (Socket.setRemoteAddress answeringLink lanPeer 1883 usedSocket idle).2.1 idle).2.packet =
       answeringLink.sendInternal
         (Socket.setRemoteAddress answeringLink lanPeer 1883 usedSocket idle).2.1 5 false
         (answeringLink.prepareSend
           { destination := lanPeer,
             etherDestination :=
               (Socket.setRemoteAddress answeringLink lanPeer 1883 usedSocket idle).2.1._remoteMac,
             payload := idle.packet.payload })) :=
  ⟨by decide,
    send_addresses_configured_remote answeringLink lanPeer 1883 5 usedSocket idle idle
      (by decide)⟩

/-- C7, as stated, fails: on the quiet link `setRemoteAddress` gives the same result,
false, for the on-subnet peer `fe80::2` whose MAC is not yet discovered, for the
unparsable string `fe80::zz` and for the unknown host name `nohost`. -/
theorem pending_same_result_as_config_error :
    quietLink.inOurSubnet lanPeer = true ∧
    (quietLink.discoverNeighbour idle.packet lanPeer).1 = none ∧
    containsColon "fe80::zz" = true ∧
    (quietLink.fromString usedSocket._remoteAddress "fe80::zz").1 = false ∧
    containsColon "nohost" = false ∧
    (quietLink.lookupHostname idle.packet "nohost").1 = none ∧
    (Socket.setRemoteAddress quietLink lanPeer 1883 usedSocket idle).1 =
      (Socket.setRemoteAddressString quietLink "fe80::zz" 1883 usedSocket idle).1 ∧
    (Socket.setRemoteAddress quietLink lanPeer 1883 usedSocket idle).1 =
      (Socket.setRemoteAddressString quietLink "nohost" 1883 usedSocket idle).1 := by
  refine ⟨by decide, by decide, by decide, by decide, by decide, by decide, by decide,
    by decide⟩

/-- C7, amended: resolution pending is reported with the same result as a configuration
error.  `setRemoteAddress` returns false when the address is on-subnet and neighbour
discovery has not yielded a MAC, and it returns false as well for an unparsable address
string and for a failed hostname lookup. -/
theorem pending_and_config_error_both_false (c : Collaborators) (addr : IPv6Address)
    (port port2 : Nat) (s s2 : Socket) (e e2 : EtherSia) (str : String)
    (hsub : c.inOurSubnet addr = true)
    (hnone : (c.discoverNeighbour e.packet addr).1 = none)
    (hcfg : (containsColon str = true ∧ (c.fromString s2._remoteAddress str).1 = false) ∨
      (containsColon str = false ∧ (c.lookupHostname e2.packet str).1 = none)) :
    (Socket.setRemoteAddress c addr port s e).1 = false ∧
    (Socket.setRemoteAddressString c str port2 s2 e2).1 = false ∧
    (Socket.setRemoteAddress c addr port s e).1 =
      (Socket.setRemoteAddressString c str port2 s2 e2).1 := by
  have h1 := (setRemoteAddress_pending c addr port s e hsub hnone).1
  have h2 := (setRemoteAddressString_config_error c str port2 s2 e2 hcfg).1
  exact ⟨h1, h2, by rw [h1, h2]⟩

theorem pending_and_config_error_both_false_witness :
    quietLink.inOurSubnet lanPeer = true ∧
    (quietLink.discoverNeighbour idle.packet lanPeer).1 = none ∧
    ((containsColon "nohost" = true ∧
        (quietLink.fromString usedSocket._remoteAddress "nohost").1 = false) ∨
      (containsColon "nohost" = false ∧
        (quietLink.lookupHostname idle.packet "nohost").1 = none)) ∧
    ((Socket.setRemoteAddress quietLink lanPeer 1883 usedSocket idle).1 = false ∧
     (Socket.setRemoteAddressString quietLink "nohost" 1884 usedSocket idle).1 = false ∧
     (Socket.setRemoteAddress quietLink lanPeer 1883 usedSocket idle).1 =
       (Socket.setRemoteAddressString quietLink "nohost" 1884 usedSocket idle).1) :=
  ⟨by decide, by decide, Or.inr ⟨by decide, rfl⟩,
    pending_and_config_error_both_false quietLink lanPeer 1883 1884 usedSocket usedSocket
      idle idle "nohost" (by decide) (by decide) (Or.inr ⟨by decide, rfl⟩)⟩

/-- C8, as stated, fails: for the dotted-notation literal `192.0.2.1`, which has no
colon, `lookupHostname` is called once; and for `fe80::zz`, which has a colon and which
the parser rejects, so that it is no address literal, `lookupHostname` is not called. -/
theorem lookupHostname_called_for_dotted_literal :
    lookupHostnameCalls
        (Socket.setRemoteAddressString quietLink "192.0.2.1" 1883 usedSocket idle).2.2.calls =
      ["192.0.2.1"] ∧
    (quietLink.fromString usedSocket._remoteAddress "fe80::zz").1 = false ∧
    lookupHostnameCalls
        (Socket.setRemoteAddressString quietLink "fe80::zz" 1883 usedSocket idle).2.2.calls =
      [] := by
  refine ⟨by decide, by decide, by decide⟩

/-- C8, amended: `setRemoteAddress(const char*, port)` invokes the hostname lookup
exactly when the supplied string has no colon.  For every string with a colon
`lookupHostname` is never called, and for every other string, dotted-notation literals
included, it is called exactly once with that string. -/
theorem lookupHostname_called_iff_no_colon (c : Collaborators) (str : String)
    (port : Nat) (s : Socket) (e : EtherSia) :
    lookupHostnameCalls (Socket.setRemoteAddressString c str port s e).2.2.calls =
      lookupHostnameCalls e.calls ++ (if containsColon str then [] else [str]) :=
  setRemoteAddressString_lookups c str port s e

/-- C9: for an on-subnet address for which `discoverNeighbour` yields no MAC,
`setRemoteAddress(addr, port)` returns false and leaves the remote MAC and the local
port as they were, yet afterwards `remoteAddress()` is `addr` and `remotePort()` is
`port`; the address and the port are recorded by every call, whatever its result. -/
theorem setRemoteAddress_not_atomic (c : Collaborators) (addr : IPv6Address) (port : Nat)
    (s : Socket) (e : EtherSia) (hsub : c.inOurSubnet addr = true)
    (hnone : (c.discoverNeighbour e.packet addr).1 = none) :
    (Socket.setRemoteAddress c addr port s e).1 = false ∧
    (Socket.setRemoteAddress c addr port s e).2.1._remoteMac = s._remoteMac ∧
    (Socket.setRemoteAddress c addr port s e).2.1.localPort = s.localPort ∧
    (Socket.setRemoteAddress c addr port s e).2.1.remoteAddress = addr ∧
    (Socket.setRemoteAddress c addr port s e).2.1.remotePort = port ∧
    (∀ (c2 : Collaborators) (s2 : Socket) (e2 : EtherSia),
      (Socket.setRemoteAddress c2 addr port s2 e2).2.1.remoteAddress = addr ∧
      (Socket.setRemoteAddress c2 addr port s2 e2).2.1.remotePort = port) := by
  obtain ⟨h1, h2⟩ := setRemoteAddress_pending c addr port s e hsub hnone
  obtain ⟨h3, h4, h5⟩ := setRemoteAddress_records c addr port s e
  refine ⟨h1, by rw [h2], h5, h3, h4, ?_⟩
  intro c2 s2 e2
  exact ⟨(setRemoteAddress_records c2 addr port s2 e2).1,
    (setRemoteAddress_records c2 addr port s2 e2).2.1⟩

theorem setRemoteAddress_not_atomic_witness :
    quietLink.inOurSubnet lanPeer = true ∧
    (quietLink.discoverNeighbour idle.packet lanPeer).1 = none ∧
    ((Socket.setRemoteAddress quietLink lanPeer 1883 usedSocket idle).1 = false ∧
     (Socket.setRemoteAddress quietLink lanPeer 1883 usedSocket idle).2.1._remoteMac =
       usedSocket._remoteMac ∧
     (Socket.setRemoteAddress quietLink lanPeer 1883 usedSocket idle).2.1.localPort =
       usedSocket.localPort ∧
     (Socket.setRemoteAddress quietLink lanPeer 1883 usedSocket idle).2.1.remoteAddress =
       lanPeer ∧
     (Socket.setRemoteAddress quietLink lanPeer 1883 usedSocket idle).2.1.remotePort = 1883 ∧
     (∀ (c2 : Collaborators) (s2 : Socket) (e2 : EtherSia),
       (Socket.setRemoteAddress c2 lanPeer 1883 s2 e2).2.1.remoteAddress = lanPeer ∧
       (Socket.setRemoteAddress c2 lanPeer 1883 s2 e2).2.1.remotePort = 1883)) :=
  ⟨by decide, by decide,
    setRemoteAddress_not_atomic quietLink lanPeer 1883 usedSocket idle (by decide)
      (by decide)⟩

end Sia
